import Mathlib

/-!
Verification of the freesasa-python specification against a shallow
embedding of the module.  The repository ships only the Python test
suite and the build script; the bindings themselves (the Cython layer
and the FreeSASA C library) are declared by `setup.py` but their code
is not part of the repository snapshot.  All operations are therefore
modelled from the natural-language specification, with the behaviours
pinned down by `test.py` (validation failures raise `AssertionError`,
option dictionaries, default parameter values, unknown-atom policies).

Numeric values are modelled with `ℚ` (exact arithmetic); areas that
involve the sphere constant are expressed in `ℝ` via `Real.pi`.
Fallible operations return `Except String _` mirroring raised
exceptions, or a `_ × Bool` pair for mutating setters, where the
boolean records success and failure leaves the state component equal
to the input state.
-/

namespace FreeSASA

/-- Algorithm selector.  Modelled from the spec: "algorithm selector
(enum: SphereSampling, Slicing)"; the Python module exposes the two
constants `ShrakeRupley` and `LeeRichards`. -/
inductive Algorithm where
  | ShrakeRupley
  | LeeRichards
deriving DecidableEq, Repr

/-- Modelled from the spec: the `Parameters` object holding the
algorithm selector, probe radius, sample-point count, slice count and
thread count (§3 Data Model).  Counts are kept as integers so that
non-positive candidate values can be expressed. -/
structure Parameters where
  algorithm : Algorithm
  probeRadius : ℚ
  nPoints : ℤ
  nSlices : ℤ
  nThreads : ℤ
deriving DecidableEq, Repr

/-- Modelled from the spec: the default parameter set of the module
(`Parameters()` in `test.py` has algorithm `LeeRichards`, and the
library documents probe radius 1.4, 100 sample points, 20 slices,
1 thread). -/
def defaultParameters : Parameters :=
  { algorithm := Algorithm.LeeRichards
    probeRadius := 14/10
    nPoints := 100
    nSlices := 20
    nThreads := 1 }

/-- Modelled from the spec: `setProbeRadius` validates its argument
(probe radius must be ≥ 0) and rejects out-of-range values with a
validation failure, never clamping.  The boolean records success;
on failure the returned parameter record is the unchanged input. -/
def setProbeRadius (p : Parameters) (r : ℚ) : Parameters × Bool :=
  if r < 0 then (p, false) else ({ p with probeRadius := r }, true)

/-- Modelled from the spec: `setNPoints` accepts only positive
sample-point counts. -/
def setNPoints (p : Parameters) (n : ℤ) : Parameters × Bool :=
  if n ≤ 0 then (p, false) else ({ p with nPoints := n }, true)

/-- Modelled from the spec: `setNSlices` accepts only positive slice
counts. -/
def setNSlices (p : Parameters) (n : ℤ) : Parameters × Bool :=
  if n ≤ 0 then (p, false) else ({ p with nSlices := n }, true)

/-- Modelled from the spec: `setNThreads` accepts only positive
thread counts. -/
def setNThreads (p : Parameters) (n : ℤ) : Parameters × Bool :=
  if n ≤ 0 then (p, false) else ({ p with nThreads := n }, true)

end FreeSASA

/-- Claim C3: every setter on `Parameters` rejects out-of-range values
with a distinguishable validation failure (`false` flag) and leaves
the stored value unchanged, never clamping: `setProbeRadius` fails for
every negative radius, and `setNPoints`, `setNSlices`, `setNThreads`
fail for every non-positive count, while in-range values are stored
and returned by the corresponding getter. -/
theorem parameters_setters_validate (p : FreeSASA.Parameters) (r : ℚ) (n : ℤ) :
    (r < 0 → FreeSASA.setProbeRadius p r = (p, false)) ∧
    (0 ≤ r → FreeSASA.setProbeRadius p r =
      ({ p with probeRadius := r }, true) ∧
      (FreeSASA.setProbeRadius p r).1.probeRadius = r) ∧
    (n ≤ 0 → FreeSASA.setNPoints p n = (p, false) ∧
             FreeSASA.setNSlices p n = (p, false) ∧
             FreeSASA.setNThreads p n = (p, false)) ∧
    (0 < n → (FreeSASA.setNPoints p n).2 = true ∧
             (FreeSASA.setNPoints p n).1.nPoints = n ∧
             (FreeSASA.setNSlices p n).2 = true ∧
             (FreeSASA.setNSlices p n).1.nSlices = n ∧
             (FreeSASA.setNThreads p n).2 = true ∧
             (FreeSASA.setNThreads p n).1.nThreads = n) := by
  refine ⟨fun h => ?_, fun h => ?_, fun h => ?_, fun h => ?_⟩
  · simp [FreeSASA.setProbeRadius, h]
  · simp [FreeSASA.setProbeRadius, not_lt.mpr h]
  · simp [FreeSASA.setNPoints, FreeSASA.setNSlices, FreeSASA.setNThreads, h]
  · simp [FreeSASA.setNPoints, FreeSASA.setNSlices, FreeSASA.setNThreads,
      not_le.mpr h]

/-- Witness for C3: concrete instantiation at the default parameters
with radius `-1` rejected, radius `3/2` accepted, count `0` rejected
and count `2` accepted. -/
theorem parameters_setters_validate_witness :
    (FreeSASA.setProbeRadius FreeSASA.defaultParameters (-1) =
      (FreeSASA.defaultParameters, false)) ∧
    (FreeSASA.setProbeRadius FreeSASA.defaultParameters (3/2)).1.probeRadius = 3/2 ∧
    FreeSASA.setNPoints FreeSASA.defaultParameters 0 =
      (FreeSASA.defaultParameters, false) ∧
    (FreeSASA.setNThreads FreeSASA.defaultParameters 2).1.nThreads = 2 := by
  obtain ⟨h1, h2, h3, h4⟩ :=
    parameters_setters_validate FreeSASA.defaultParameters (-1) 0
  obtain ⟨h1b, h2b, h3b, h4b⟩ :=
    parameters_setters_validate FreeSASA.defaultParameters (3/2) 2
  exact ⟨h1 (neg_lt_zero.mpr zero_lt_one), 
    (h2b (div_nonneg zero_le_three zero_le_two)).2, (h3 (by decide)).1,
    (h4b (by decide)).2.2.2.2.2⟩

namespace FreeSASA

/-- Modelled from the spec: one atom of the structure model — immutable
identity (atom name, residue name, residue number, chain label) plus
mutable geometric state (position, radius) (§3 Data Model). -/
structure Atom where
  atomName : String
  residueName : String
  residueNumber : String
  chainLabel : Char
  x : ℚ
  y : ℚ
  z : ℚ
  radius : ℚ
deriving DecidableEq, Repr

/-- Modelled from the spec: a `Structure` is an ordered sequence of
atoms; insertion order is input order and atom indices are stable. -/
structure Structure where
  atoms : List Atom
deriving DecidableEq, Repr

/-- Number of atoms (`nAtoms` in the Python interface). -/
def Structure.nAtoms (s : Structure) : ℕ := s.atoms.length

/-- Modelled from the spec: per-atom access validates the index and
fails for out-of-bounds indices (§7(c) validation failures). -/
def Structure.atomAt (s : Structure) (i : ℕ) : Except String Atom :=
  match s.atoms[i]? with
  | some a => Except.ok a
  | none => Except.error "atom index out of bounds"

/-- Per-atom accessor `atomName`. -/
def Structure.atomName (s : Structure) (i : ℕ) : Except String String :=
  (s.atomAt i).map Atom.atomName

/-- Per-atom accessor `residueName`. -/
def Structure.residueName (s : Structure) (i : ℕ) : Except String String :=
  (s.atomAt i).map Atom.residueName

/-- Per-atom accessor `residueNumber`. -/
def Structure.residueNumber (s : Structure) (i : ℕ) : Except String String :=
  (s.atomAt i).map Atom.residueNumber

/-- Per-atom accessor `chainLabel`. -/
def Structure.chainLabel (s : Structure) (i : ℕ) : Except String Char :=
  (s.atomAt i).map Atom.chainLabel

/-- Per-atom accessor `coord`, returning the position triple. -/
def Structure.coord (s : Structure) (i : ℕ) : Except String (ℚ × ℚ × ℚ) :=
  (s.atomAt i).map (fun a => (a.x, a.y, a.z))

/-- Per-atom accessor `radius`. -/
def Structure.radius (s : Structure) (i : ℕ) : Except String ℚ :=
  (s.atomAt i).map Atom.radius

/-- Modelled from the spec: `setRadius` mutates one atom's radius
after validating the index; an out-of-bounds index is a validation
failure and the structure is not modified. -/
def Structure.setRadius (s : Structure) (i : ℕ) (r : ℚ) :
    Except String Structure :=
  match s.atoms[i]? with
  | some a => Except.ok ⟨s.atoms.set i { a with radius := r }⟩
  | none => Except.error "atom index out of bounds"

/-- Modelled from the spec: `setRadii` assigns radii from an array;
the array length must match the atom count exactly or the call fails
with a validation failure leaving no partial update (§3, §4.1). -/
def Structure.setRadii (s : Structure) (radii : List ℚ) :
    Except String Structure :=
  if radii.length = s.atoms.length then
    Except.ok ⟨List.zipWith (fun a r => { a with radius := r }) s.atoms radii⟩
  else
    Except.error "radii array must have same length as number of atoms"

/-- Modelled from the spec: the loading/ingestion policy flags of a
`Structure` (§4.1): include hydrogens, include heteroatoms, join
models, and the unknown-atom policy (`skip-unknown`,
`halt-at-unknown`). -/
structure StructureOptions where
  hetatm : Bool := false
  hydrogen : Bool := false
  joinModels : Bool := false
  skipUnknown : Bool := false
  haltAtUnknown : Bool := false
deriving DecidableEq, Repr

/-- Modelled from the spec: `addAtom` appends one atom; its radius is
resolved through the attached classifier's radius lookup.  When the
(residue name, atom name) pair is unknown to the classifier the
configured policy decides the outcome: halt → hard failure, skip →
atom omitted, otherwise the atom is included with zero radius and a
warning signal (§3 Atom invariant, §7(b) policy-governed anomalies). -/
def Structure.addAtom (s : Structure) (radiusOf : String → String → Option ℚ)
    (opts : StructureOptions) (atomName residueName residueNumber : String)
    (chainLabel : Char) (x y z : ℚ) : Except String Structure :=
  match radiusOf residueName atomName with
  | some r =>
      Except.ok ⟨s.atoms ++
        [⟨atomName, residueName, residueNumber, chainLabel, x, y, z, r⟩]⟩
  | none =>
      if opts.haltAtUnknown then
        Except.error "halting at unknown atom"
      else if opts.skipUnknown then
        Except.ok s
      else
        Except.ok ⟨s.atoms ++
          [⟨atomName, residueName, residueNumber, chainLabel, x, y, z, 0⟩]⟩

/-- Modelled from the spec: the per-atom area vector of a computed
result (§3: "per-atom area vector (length = atom count), total
area"). -/
structure ResultData where
  atomAreas : List ℚ
deriving DecidableEq, Repr

/-- Modelled from the spec: a Python-level `Result` object wraps the
computed data; a default-constructed `Result()` holds none and was
not produced by a computation. -/
structure Result where
  data : Option ResultData
deriving DecidableEq, Repr

/-- Modelled from the spec: `Result()` — a default-constructed result
with no computation attached. -/
def emptyResult : Result := ⟨none⟩

/-- Modelled from the spec: `totalArea` queries the computed total and
fails on a result that was not produced by a computation. -/
def Result.totalArea (r : Result) : Except String ℚ :=
  match r.data with
  | some d => Except.ok d.atomAreas.sum
  | none => Except.error "Result not initialized"

/-- Modelled from the spec: `atomArea` queries one atom's area and
fails on a result that was not produced by a computation. -/
def Result.atomArea (r : Result) (i : ℕ) : Except String ℚ :=
  match r.data with
  | some d =>
      match d.atomAreas[i]? with
      | some a => Except.ok a
      | none => Except.error "atom index out of bounds"
  | none => Except.error "Result not initialized"

end FreeSASA

/-- Claim C7: for every `Structure` with `n` atoms and every index
`i ≥ n`, each per-atom accessor (`atomName`, `residueName`,
`residueNumber`, `chainLabel`, `coord`, `radius`) and the per-atom
mutator `setRadius` fails with a validation failure rather than
returning a value or modifying the structure. -/
theorem structure_accessors_out_of_bounds_fail (s : FreeSASA.Structure)
    (i : ℕ) (r : ℚ) (h : s.nAtoms ≤ i) :
    s.atomName i = Except.error "atom index out of bounds" ∧
    s.residueName i = Except.error "atom index out of bounds" ∧
    s.residueNumber i = Except.error "atom index out of bounds" ∧
    s.chainLabel i = Except.error "atom index out of bounds" ∧
    s.coord i = Except.error "atom index out of bounds" ∧
    s.radius i = Except.error "atom index out of bounds" ∧
    s.setRadius i r = Except.error "atom index out of bounds" := by
  have hnone : s.atoms[i]? = none := List.getElem?_eq_none h
  refine ⟨?_, ?_, ?_, ?_, ?_, ?_, ?_⟩ <;>
    simp [FreeSASA.Structure.atomName, FreeSASA.Structure.residueName,
      FreeSASA.Structure.residueNumber, FreeSASA.Structure.chainLabel,
      FreeSASA.Structure.coord, FreeSASA.Structure.radius,
      FreeSASA.Structure.setRadius, FreeSASA.Structure.atomAt, hnone,
      Except.map]

/-- Witness for C7: a one-atom structure rejects access at index 3. -/
theorem structure_accessors_out_of_bounds_fail_witness :
    (FreeSASA.Structure.mk [⟨" CA ", "ALA", "   1", 'A', 1, 1, 1, 2⟩]).atomName 3 =
      Except.error "atom index out of bounds" ∧
    (FreeSASA.Structure.mk [⟨" CA ", "ALA", "   1", 'A', 1, 1, 1, 2⟩]).setRadius 3 10 =
      Except.error "atom index out of bounds" := by
  obtain ⟨h1, h2, h3, h4, h5, h6, h7⟩ :=
    structure_accessors_out_of_bounds_fail
      (FreeSASA.Structure.mk [⟨" CA ", "ALA", "   1", 'A', 1, 1, 1, 2⟩]) 3 10
      (by decide)
  exact ⟨h1, h7⟩

/-- Claim C6: `setRadii` fails whenever the array length differs from
the atom count (both shorter and longer), leaving no partial update
(the failure carries no new structure); when the length matches
exactly, every atom `i` receives the `i`-th radius of the array, with
the identity fields untouched. -/
theorem structure_setRadii_length_check (s : FreeSASA.Structure)
    (radii : List ℚ) :
    (radii.length ≠ s.nAtoms →
      s.setRadii radii =
        Except.error "radii array must have same length as number of atoms") ∧
    (radii.length = s.nAtoms →
      ∃ s2, s.setRadii radii = Except.ok s2 ∧ s2.nAtoms = s.nAtoms ∧
        ∀ i, i < s.nAtoms →
          s2.radius i = Except.ok (radii.getD i 0) ∧
          s2.atomName i = s.atomName i) := by
  constructor
  · intro hne
    simp [FreeSASA.Structure.setRadii, FreeSASA.Structure.nAtoms] at hne ⊢
    intro hc
    exact absurd hc hne
  · intro heq
    have hlen : radii.length = s.atoms.length := heq
    refine ⟨⟨List.zipWith (fun a r => { a with radius := r }) s.atoms radii⟩,
      ?_, ?_, ?_⟩
    · simp [FreeSASA.Structure.setRadii, hlen]
    · simp [FreeSASA.Structure.nAtoms, List.length_zipWith, hlen]
    · intro i hi
      have hiA : i < s.atoms.length := hi
      have hiR : i < radii.length := by omega
      have hiZ : i < (List.zipWith
          (fun (a : FreeSASA.Atom) (r : ℚ) => { a with radius := r })
          s.atoms radii).length := by
        simp [List.length_zipWith]; omega
      have hz : (List.zipWith
          (fun (a : FreeSASA.Atom) (r : ℚ) => { a with radius := r })
          s.atoms radii)[i]? =
          some { s.atoms[i] with radius := radii[i] } := by
        rw [List.getElem?_eq_getElem hiZ]
        simp [List.getElem_zipWith]
      have hg : radii.getD i 0 = radii[i] := by
        simp [List.getD_eq_getElem?_getD, List.getElem?_eq_getElem hiR]
      constructor
      · simp [FreeSASA.Structure.radius, FreeSASA.Structure.atomAt, hz, hg,
          Except.map, List.getElem?_eq_getElem hiR]
      · simp [FreeSASA.Structure.atomName, FreeSASA.Structure.atomAt, hz,
          List.getElem?_eq_getElem hiA, Except.map]

/-- Witness for C6: on a two-atom structure, a length-1 array and a
length-3 array are rejected, and the matching array `[1, 3]` assigns
radius `1` to atom `0` and radius `3` to atom `1`. -/
theorem structure_setRadii_length_check_witness :
    (FreeSASA.Structure.mk
        [⟨" CA ", "ALA", "   1", 'A', 1, 1, 1, 2⟩,
         ⟨" CB ", "ALA", "2", 'A', 2, 1, 1, 2⟩]).setRadii [1] =
      Except.error "radii array must have same length as number of atoms" ∧
    (FreeSASA.Structure.mk
        [⟨" CA ", "ALA", "   1", 'A', 1, 1, 1, 2⟩,
         ⟨" CB ", "ALA", "2", 'A', 2, 1, 1, 2⟩]).setRadii [1, 2, 3] =
      Except.error "radii array must have same length as number of atoms" ∧
    ∃ s2, (FreeSASA.Structure.mk
        [⟨" CA ", "ALA", "   1", 'A', 1, 1, 1, 2⟩,
         ⟨" CB ", "ALA", "2", 'A', 2, 1, 1, 2⟩]).setRadii [1, 3] =
      Except.ok s2 ∧ s2.radius 0 = Except.ok 1 ∧ s2.radius 1 = Except.ok 3 := by
  refine ⟨?_, ?_, ?_⟩
  · exact (structure_setRadii_length_check _ [1]).1 (by decide)
  · exact (structure_setRadii_length_check _ [1, 2, 3]).1 (by decide)
  · obtain ⟨s2, hok, hlen, hall⟩ :=
      (structure_setRadii_length_check
        (FreeSASA.Structure.mk
          [⟨" CA ", "ALA", "   1", 'A', 1, 1, 1, 2⟩,
           ⟨" CB ", "ALA", "2", 'A', 2, 1, 1, 2⟩]) [1, 3]).2 (by decide)
    exact ⟨s2, hok, (hall 0 (by decide)).1, (hall 1 (by decide)).1⟩

/-- Claim C5: when an atom with unrecognized residue/atom names is
ingested into a `Structure`, the configured policy and only it governs
the outcome: under the skip policy the atom is omitted and ingestion
succeeds (the atom count does not grow), under the halt policy
ingestion fails with an error, and unknown names never cause a hard
failure unless the halt policy is selected. -/
theorem structure_addAtom_unknown_policy (s : FreeSASA.Structure)
    (radiusOf : String → String → Option ℚ) (opts : FreeSASA.StructureOptions)
    (an rn num : String) (c : Char) (x y z : ℚ)
    (hunk : radiusOf rn an = none) :
    (opts.skipUnknown = true → opts.haltAtUnknown = false →
      s.addAtom radiusOf opts an rn num c x y z = Except.ok s) ∧
    (opts.haltAtUnknown = true →
      s.addAtom radiusOf opts an rn num c x y z =
        Except.error "halting at unknown atom") ∧
    (opts.haltAtUnknown = false →
      ∃ s2, s.addAtom radiusOf opts an rn num c x y z = Except.ok s2) := by
  refine ⟨fun hskip hhalt => ?_, fun hhalt => ?_, fun hhalt => ?_⟩
  · simp [FreeSASA.Structure.addAtom, hunk, hskip, hhalt]
  · simp [FreeSASA.Structure.addAtom, hunk, hhalt]
  · by_cases hskip : opts.skipUnknown = true
    · exact ⟨s, by simp [FreeSASA.Structure.addAtom, hunk, hskip, hhalt]⟩
    · refine ⟨⟨s.atoms ++ [⟨an, rn, num, c, x, y, z, 0⟩]⟩, ?_⟩
      simp at hskip
      simp [FreeSASA.Structure.addAtom, hunk, hskip, hhalt]

/-- Witness for C5: the classifier that knows no atom, applied to the
atom `(' XX ', 'ALA')` of `test.py`: with `skip-unknown` the structure
stays empty and the call succeeds, with `halt-at-unknown` it fails. -/
theorem structure_addAtom_unknown_policy_witness :
    (FreeSASA.Structure.mk []).addAtom (fun _ _ => none)
      { skipUnknown := true } " XX " "ALA" "   1" 'A' 1 1 1 =
      Except.ok (FreeSASA.Structure.mk []) ∧
    (FreeSASA.Structure.mk []).addAtom (fun _ _ => none)
      { haltAtUnknown := true } " XX " "ALA" "   1" 'A' 1 1 1 =
      Except.error "halting at unknown atom" := by
  obtain ⟨h1, _, _⟩ := structure_addAtom_unknown_policy
    (FreeSASA.Structure.mk []) (fun _ _ => none) { skipUnknown := true }
    " XX " "ALA" "   1" 'A' 1 1 1 rfl
  obtain ⟨_, h2, _⟩ := structure_addAtom_unknown_policy
    (FreeSASA.Structure.mk []) (fun _ _ => none) { haltAtUnknown := true }
    " XX " "ALA" "   1" 'A' 1 1 1 rfl
  exact ⟨h1 rfl rfl, h2 rfl⟩

/-- Claim C9: querying a default-constructed `Result` that was not
produced by a computation (calling `totalArea()` or `atomArea(0)` on
`Result()`) raises an error rather than returning zero or any default
value. -/
theorem result_uninitialized_queries_fail :
    FreeSASA.emptyResult.totalArea = Except.error "Result not initialized" ∧
    FreeSASA.emptyResult.atomArea 0 = Except.error "Result not initialized" :=
  ⟨rfl, rfl⟩

namespace FreeSASA

/-- Modelled from the spec: accumulate one atom's area into the
per-class accumulator, an association list keyed by class name
(`classifyResults` returns a dictionary class → summed area). -/
def addToClass (m : List (String × ℚ)) (k : String) (v : ℚ) :
    List (String × ℚ) :=
  match m with
  | [] => [(k, v)]
  | kv :: rest =>
      if kv.1 = k then (kv.1, kv.2 + v) :: rest
      else kv :: addToClass rest k v

/-- Modelled from the spec: `classifyResults` walks the structure's
atoms together with the result's per-atom areas, labels each atom with
the classifier's class for its (residue name, atom name) pair, and
sums the areas per class (§4.6: atom nodes carry area split by
polarity class). -/
def classifyResults (classify : String → String → String) (r : ResultData)
    (s : Structure) : List (String × ℚ) :=
  List.foldl
    (fun m aa => addToClass m (classify aa.1.residueName aa.1.atomName) aa.2)
    [] (s.atoms.zip r.atomAreas)

/-- Sum of the per-class areas of a classification dictionary. -/
def classTotal (m : List (String × ℚ)) : ℚ := (m.map Prod.snd).sum

theorem classTotal_addToClass (m : List (String × ℚ)) (k : String) (v : ℚ) :
    classTotal (addToClass m k v) = classTotal m + v := by
  induction m with
  | nil => simp [addToClass, classTotal]
  | cons kv rest ih =>
      by_cases h : kv.1 = k
      · simp [addToClass, h, classTotal]; ring
      · simp [addToClass, h, classTotal] at ih ⊢
        rw [ih]; ring

theorem classTotal_foldl (l : List (Atom × ℚ))
    (classify : String → String → String) :
    ∀ m : List (String × ℚ),
      classTotal (List.foldl
        (fun m aa => addToClass m (classify aa.1.residueName aa.1.atomName) aa.2)
        m l) = classTotal m + (l.map Prod.snd).sum := by
  induction l with
  | nil => intro m; simp
  | cons aa rest ih =>
      intro m
      simp only [List.foldl_cons, List.map_cons, List.sum_cons]
      rw [ih, classTotal_addToClass]
      ring

end FreeSASA

/-- Claim C2: for every `Result` produced by a computation (its
per-atom area vector has length equal to the structure's atom count),
the sum of the per-class areas returned by `classifyResults` over all
atoms equals the `Result`'s total area. -/
theorem classifyResults_sum_eq_totalArea
    (classify : String → String → String) (r : FreeSASA.ResultData)
    (s : FreeSASA.Structure) (h : r.atomAreas.length = s.nAtoms) :
    FreeSASA.classTotal (FreeSASA.classifyResults classify r s) =
      r.atomAreas.sum ∧
    (FreeSASA.Result.mk (some r)).totalArea =
      Except.ok (FreeSASA.classTotal (FreeSASA.classifyResults classify r s)) := by
  have hsnd : (s.atoms.zip r.atomAreas).map Prod.snd = r.atomAreas :=
    List.map_snd_zip s.atoms r.atomAreas (le_of_eq h)
  have hmain : FreeSASA.classTotal (FreeSASA.classifyResults classify r s) =
      r.atomAreas.sum := by
    unfold FreeSASA.classifyResults
    rw [FreeSASA.classTotal_foldl, hsnd]
    simp [FreeSASA.classTotal]
  exact ⟨hmain, by simp [FreeSASA.Result.totalArea, hmain]⟩

/-- Witness for C2: a two-atom alanine fragment where the classifier
sends `CA` to Polar and `CB` to Apolar; the polar and apolar class
areas sum to the total area `5`. -/
theorem classifyResults_sum_eq_totalArea_witness :
    FreeSASA.classTotal
      (FreeSASA.classifyResults
        (fun _ an => if an = " CB " then "Apolar" else "Polar")
        ⟨[2, 3]⟩
        (FreeSASA.Structure.mk
          [⟨" CA ", "ALA", "   1", 'A', 1, 1, 1, 2⟩,
           ⟨" CB ", "ALA", "   1", 'A', 2, 1, 1, 2⟩])) =
      ([2, 3] : List ℚ).sum ∧
    (FreeSASA.Result.mk (some ⟨[2, 3]⟩)).totalArea =
      Except.ok (([2, 3] : List ℚ).sum) := by
  obtain ⟨h1, h2⟩ := classifyResults_sum_eq_totalArea
    (fun _ an => if an = " CB " then "Apolar" else "Polar")
    ⟨[2, 3]⟩
    (FreeSASA.Structure.mk
      [⟨" CA ", "ALA", "   1", 'A', 1, 1, 1, 2⟩,
       ⟨" CB ", "ALA", "   1", 'A', 2, 1, 1, 2⟩])
    (by decide)
  rw [h1] at h2
  exact ⟨h1, h2⟩

namespace FreeSASA

/-- Modelled from the spec: the absolute areas summed over a residue's
atom children — total, main-chain, side-chain, polar, apolar (§3
Node, §4.6). -/
structure AbsoluteAreas where
  total : ℚ
  mainChain : ℚ
  sideChain : ℚ
  polar : ℚ
  apolar : ℚ
deriving DecidableEq, Repr

/-- Modelled from the spec: one entry of the built-in reference
maximum-exposure table for a residue type.  The side-chain reference
is optional: glycine has no side chain, so its side-chain reference
does not exist (§3 Node: "undefined/NaN when no reference exists,
e.g. side-chain area of glycine"). -/
structure ReferenceAreas where
  total : ℚ
  mainChain : ℚ
  sideChain : Option ℚ
  polar : ℚ
  apolar : ℚ
deriving DecidableEq, Repr

/-- Modelled from the spec: a residue node of the result tree as
surfaced in Python by `Result.residueAreas()` — residue type and
number, absolute areas, and relative areas.  A relative area of
`none` surfaces as NaN in the Python interface. -/
structure ResidueArea where
  residueType : String
  residueNumber : String
  total : ℚ
  mainChain : ℚ
  sideChain : ℚ
  polar : ℚ
  apolar : ℚ
  hasRelativeAreas : Bool
  relativeTotal : Option ℚ
  relativeMainChain : Option ℚ
  relativeSideChain : Option ℚ
  relativePolar : Option ℚ
  relativeApolar : Option ℚ
deriving DecidableEq, Repr

/-- Modelled from the spec: build one residue node from its absolute
areas and the reference table.  Relative areas divide the absolute
area by the reference maximum; a residue type absent from the table
yields undefined relative values (never zero or another numeric
default), and a missing side-chain reference yields an undefined
relative side-chain area, while the absolute areas are always
carried (§4.6 Result Tree & Normalization). -/
def mkResidueArea (refTable : String → Option ReferenceAreas)
    (rt rnum : String) (a : AbsoluteAreas) : ResidueArea :=
  match refTable rt with
  | none =>
      { residueType := rt, residueNumber := rnum
        total := a.total, mainChain := a.mainChain, sideChain := a.sideChain
        polar := a.polar, apolar := a.apolar
        hasRelativeAreas := false
        relativeTotal := none, relativeMainChain := none
        relativeSideChain := none, relativePolar := none
        relativeApolar := none }
  | some ref =>
      { residueType := rt, residueNumber := rnum
        total := a.total, mainChain := a.mainChain, sideChain := a.sideChain
        polar := a.polar, apolar := a.apolar
        hasRelativeAreas := true
        relativeTotal := some (a.total / ref.total)
        relativeMainChain := some (a.mainChain / ref.mainChain)
        relativeSideChain := ref.sideChain.map (fun q => a.sideChain / q)
        relativePolar := some (a.polar / ref.polar)
        relativeApolar := some (a.apolar / ref.apolar) }

end FreeSASA

/-- Claim C4: for every residue node whose residue type has no entry
in the built-in reference maximum-exposure table, all relative area
values are undefined (surfacing as NaN), never zero or any other
numeric default, while the absolute areas are still defined; likewise
a residue type with an entry but no side-chain reference (glycine)
gets an undefined relative side-chain area. -/
theorem residueArea_relative_undefined_without_reference
    (refTable : String → Option FreeSASA.ReferenceAreas)
    (rt rnum : String) (a : FreeSASA.AbsoluteAreas) :
    (refTable rt = none →
      (FreeSASA.mkResidueArea refTable rt rnum a).relativeTotal = none ∧
      (FreeSASA.mkResidueArea refTable rt rnum a).relativeMainChain = none ∧
      (FreeSASA.mkResidueArea refTable rt rnum a).relativeSideChain = none ∧
      (FreeSASA.mkResidueArea refTable rt rnum a).relativePolar = none ∧
      (FreeSASA.mkResidueArea refTable rt rnum a).relativeApolar = none ∧
      (FreeSASA.mkResidueArea refTable rt rnum a).hasRelativeAreas = false) ∧
    (∀ ref, refTable rt = some ref → ref.sideChain = none →
      (FreeSASA.mkResidueArea refTable rt rnum a).relativeSideChain = none) ∧
    (FreeSASA.mkResidueArea refTable rt rnum a).total = a.total ∧
    (FreeSASA.mkResidueArea refTable rt rnum a).mainChain = a.mainChain ∧
    (FreeSASA.mkResidueArea refTable rt rnum a).sideChain = a.sideChain ∧
    (FreeSASA.mkResidueArea refTable rt rnum a).polar = a.polar ∧
    (FreeSASA.mkResidueArea refTable rt rnum a).apolar = a.apolar := by
  refine ⟨fun h => ?_, fun ref h hsc => ?_, ?_, ?_, ?_, ?_, ?_⟩
  · simp [FreeSASA.mkResidueArea, h]
  · simp [FreeSASA.mkResidueArea, h, hsc]
  all_goals
    cases h : refTable rt <;> simp [FreeSASA.mkResidueArea, h]

/-- Witness for C4: an unknown residue type `XXX` under the empty
reference table gets undefined relative areas with its absolute total
kept, and a glycine-like entry without a side-chain reference gets an
undefined relative side-chain area. -/
theorem residueArea_relative_undefined_without_reference_witness :
    (FreeSASA.mkResidueArea (fun _ => none) "XXX" "1"
        ⟨10, 6, 4, 7, 3⟩).relativeTotal = none ∧
    (FreeSASA.mkResidueArea (fun _ => none) "XXX" "1"
        ⟨10, 6, 4, 7, 3⟩).total = 10 ∧
    (FreeSASA.mkResidueArea
        (fun rt => if rt = "GLY" then some ⟨80, 60, none, 40, 40⟩ else none)
        "GLY" "76" ⟨142, 142, 0, 97, 44⟩).relativeSideChain = none := by
  obtain ⟨h1, _, htot, _⟩ :=
    residueArea_relative_undefined_without_reference (fun _ => none) "XXX" "1"
      ⟨10, 6, 4, 7, 3⟩
  obtain ⟨_, h2, _⟩ :=
    residueArea_relative_undefined_without_reference
      (fun rt => if rt = "GLY" then some ⟨80, 60, none, 40, 40⟩ else none)
      "GLY" "76" ⟨142, 142, 0, 97, 44⟩
  exact ⟨(h1 rfl).1, htot, h2 ⟨80, 60, none, 40, 40⟩ (by simp) rfl⟩

namespace FreeSASA

/-- Squared Euclidean distance between two rational points. -/
def dist2 (p q : ℚ × ℚ × ℚ) : ℚ :=
  (p.1 - q.1) ^ 2 + (p.2.1 - q.2.1) ^ 2 + (p.2.2 - q.2.2) ^ 2

/-- Modelled from the spec: one sphere of the computation — an atom
center with its inflated radius (atom radius plus probe radius). -/
structure Sphere where
  center : ℚ × ℚ × ℚ
  radius : ℚ
deriving DecidableEq, Repr

/-- Modelled from the spec (§4.3 Neighbor Search): the neighbor list
of atom `i` — every other atom whose inflated sphere can intersect
atom `i`'s inflated sphere (center distance below the sum of the
inflated radii). -/
def neighborsOf (spheres : List Sphere) (i : ℕ) : List Sphere :=
  match spheres[i]? with
  | none => []
  | some si =>
      (spheres.enum.filter fun ja =>
        (ja.1 != i) &&
          decide (dist2 ja.2.center si.center <
            (ja.2.radius + si.radius) ^ 2)).map Prod.snd

/-- Modelled from the spec (§4.4): a sample point is buried iff it
falls within some neighbor's inflated sphere. -/
def pointBuried (p : ℚ × ℚ × ℚ) (neighbors : List Sphere) : Bool :=
  neighbors.any fun nb => decide (dist2 p nb.center < nb.radius ^ 2)

/-- Position of the sample point in direction `u` on the surface of
sphere `s` (center plus inflated radius times the unit direction). -/
def samplePos (s : Sphere) (u : ℚ × ℚ × ℚ) : ℚ × ℚ × ℚ :=
  (s.center.1 + s.radius * u.1,
   s.center.2.1 + s.radius * u.2.1,
   s.center.2.2 + s.radius * u.2.2)

/-- Modelled from the spec (§4.4 Shrake-Rupley): the number of sample
points of the deterministic point set that are not buried by any
neighbor sphere. -/
def freeCount (s : Sphere) (pts : List (ℚ × ℚ × ℚ))
    (neighbors : List Sphere) : ℕ :=
  (pts.filter fun u => !pointBuried (samplePos s u) neighbors).length

/-- Area of the full sphere of radius `r`. -/
noncomputable def sphereArea (r : ℚ) : ℝ := 4 * Real.pi * (r : ℝ) ^ 2

/-- Modelled from the spec (§4.4): the Shrake-Rupley estimate of one
atom's exposed area — (fraction of unburied points) × (full sphere
area at the inflated radius). -/
noncomputable def srAtomArea (s : Sphere) (pts : List (ℚ × ℚ × ℚ))
    (neighbors : List Sphere) : ℝ :=
  ((freeCount s pts neighbors : ℝ) / (pts.length : ℝ)) * sphereArea s.radius

/-- Per-atom area of the Shrake-Rupley computation over a whole
sphere list (neighbors resolved through the neighbor search). -/
noncomputable def srAtomAreaAt (pts : List (ℚ × ℚ × ℚ))
    (spheres : List Sphere) (i : ℕ) : ℝ :=
  match spheres[i]? with
  | none => 0
  | some s => srAtomArea s pts (neighborsOf spheres i)

/-- Modelled from the spec: the per-atom area vector of a
Shrake-Rupley computation. -/
noncomputable def srAreaVector (pts : List (ℚ × ℚ × ℚ))
    (spheres : List Sphere) : List ℝ :=
  (List.range spheres.length).map (srAtomAreaAt pts spheres)

/-- Modelled from the spec: the total area returned by a Shrake-Rupley
computation — the sum of the per-atom areas. -/
noncomputable def srTotalArea (pts : List (ℚ × ℚ × ℚ))
    (spheres : List Sphere) : ℝ :=
  (srAreaVector pts spheres).sum

/-- Modelled from the spec: `calcCoord`-style input preparation —
inflate every atom radius by the probe radius, pairing it with its
center (§ Glossary "inflated radius"). -/
def inflate (probe : ℚ) (centers : List (ℚ × ℚ × ℚ)) (radii : List ℚ) :
    List Sphere :=
  List.zipWith (fun c r => Sphere.mk c (r + probe)) centers radii

theorem srAtomArea_no_neighbors (s : Sphere) (pts : List (ℚ × ℚ × ℚ))
    (hpts : pts ≠ []) : srAtomArea s pts [] = sphereArea s.radius := by
  have hfree : freeCount s pts [] = pts.length := by
    simp [freeCount, pointBuried]
  have h0 : pts.length ≠ 0 := by
    intro h
    exact hpts (List.eq_nil_of_length_eq_zero h)
  have hlen : (pts.length : ℝ) ≠ 0 := Nat.cast_ne_zero.mpr h0
  simp [srAtomArea, hfree, div_self hlen]

theorem neighborsOf_singleton (s : Sphere) : neighborsOf [s] 0 = [] := rfl

end FreeSASA

/-- Claim C1: for a computation on a single atom (no neighbors) of
radius 1 with probe radius 0, using the sphere-sampling algorithm with
at least 5000 sample points, the returned total area is within `1e-3`
of `4π` (in the model it is exactly `4π`); more generally, an atom
with zero neighbors gets exactly its full inflated-sphere area,
independent of the sample-point count. -/
theorem isolated_sphere_total_area (pts : List (ℚ × ℚ × ℚ))
    (s : FreeSASA.Sphere) (hpts : 5000 ≤ pts.length) (hne : pts ≠ []) :
    |FreeSASA.srTotalArea pts (FreeSASA.inflate 0 [(0, 0, 0)] [1]) -
      4 * Real.pi| < 1 / 1000 ∧
    FreeSASA.srAtomArea s pts [] = FreeSASA.sphereArea s.radius := by
  constructor
  · have hinf : FreeSASA.inflate 0 [(0, 0, 0)] [1] =
        [FreeSASA.Sphere.mk (0, 0, 0) 1] := by
      simp [FreeSASA.inflate]
    have hne2 : pts ≠ [] := by
      intro h
      rw [h] at hpts
      simp at hpts
    have hat : FreeSASA.srAtomAreaAt pts [FreeSASA.Sphere.mk (0, 0, 0) 1] 0 =
        FreeSASA.srAtomArea (FreeSASA.Sphere.mk (0, 0, 0) 1) pts
          (FreeSASA.neighborsOf [FreeSASA.Sphere.mk (0, 0, 0) 1] 0) := rfl
    have hr : List.range 1 = [0] := rfl
    have htot : FreeSASA.srTotalArea pts [FreeSASA.Sphere.mk (0, 0, 0) 1] =
        FreeSASA.sphereArea 1 := by
      simp only [FreeSASA.srTotalArea, FreeSASA.srAreaVector, List.length_cons,
        List.length_nil, Nat.zero_add, hr, List.map_cons, List.map_nil,
        List.sum_cons, List.sum_nil, add_zero]
      rw [hat, FreeSASA.neighborsOf_singleton,
        FreeSASA.srAtomArea_no_neighbors _ _ hne2]
    rw [hinf, htot]
    have : FreeSASA.sphereArea 1 = 4 * Real.pi := by
      simp [FreeSASA.sphereArea]
    rw [this, sub_self, abs_zero]
    norm_num
  · exact FreeSASA.srAtomArea_no_neighbors s pts hne

/-- Witness for C1: 5000 copies of the direction `(1, 0, 0)` form a
point list of the required length, and the isolated unit sphere at the
origin evaluates to total area `4π` up to the stated tolerance. -/
theorem isolated_sphere_total_area_witness :
    |FreeSASA.srTotalArea (List.replicate 5000 ((1 : ℚ), (0 : ℚ), (0 : ℚ)))
        (FreeSASA.inflate 0 [(0, 0, 0)] [1]) - 4 * Real.pi| < 1 / 1000 ∧
    FreeSASA.srAtomArea (FreeSASA.Sphere.mk (0, 0, 0) 1)
        (List.replicate 5000 ((1 : ℚ), (0 : ℚ), (0 : ℚ))) [] =
      FreeSASA.sphereArea 1 := by
  have hlen : (List.replicate 5000 ((1 : ℚ), (0 : ℚ), (0 : ℚ))).length = 5000 :=
    List.length_replicate 5000 _
  refine isolated_sphere_total_area
    (List.replicate 5000 ((1 : ℚ), (0 : ℚ), (0 : ℚ)))
    (FreeSASA.Sphere.mk (0, 0, 0) 1) ?_ ?_
  · rw [hlen]
  · intro h
    have hcon := congrArg List.length h
    rw [hlen] at hcon
    exact absurd hcon (by decide)

namespace FreeSASA

/-- Split a list into contiguous chunks of `k + 1` elements (the last
chunk may be shorter).  This models the data-parallel work
distribution: each worker thread receives one chunk of atom indices
(§5 Concurrency & Resource Model). -/
def chunkList (k : ℕ) : List α → List (List α)
  | [] => []
  | x :: xs => ((x :: xs).take (k + 1)) :: chunkList k (xs.drop k)
termination_by l => l.length
decreasing_by
  simp only [List.length_cons, List.length_drop]
  omega

theorem chunkList_flatten (k : ℕ) (l : List α) :
    (chunkList k l).flatten = l := by
  have H : ∀ n (l : List α), l.length ≤ n → (chunkList k l).flatten = l := by
    intro n
    induction n with
    | zero =>
        intro l hl
        have : l = [] := List.eq_nil_of_length_eq_zero (Nat.le_zero.mp hl)
        subst this
        simp [chunkList]
    | succ n ih =>
        intro l hl
        match l with
        | [] => simp [chunkList]
        | x :: xs =>
            rw [chunkList]
            simp only [List.flatten_cons]
            rw [ih (xs.drop k)
              (by simp only [List.length_drop]
                  simp only [List.length_cons] at hl
                  omega)]
            simp only [List.take_succ_cons, List.cons_append, List.cons.injEq,
              true_and]
            exact List.take_append_drop k xs
  exact H l.length l le_rfl

/-- Modelled from the spec (§5): the multi-threaded Shrake-Rupley
computation — the atom indices are split into one contiguous chunk
per worker, each worker computes the areas of its chunk against the
shared read-only inputs, and the per-chunk outputs are written back
into the disjoint slots of the output vector (concatenation in chunk
order).  `nThreads` only controls the chunking. -/
noncomputable def srAreaVectorThreaded (nThreads : ℕ)
    (pts : List (ℚ × ℚ × ℚ)) (spheres : List Sphere) : List ℝ :=
  ((chunkList (spheres.length / nThreads) (List.range spheres.length)).map
      (fun chunk => chunk.map (srAtomAreaAt pts spheres))).flatten

theorem srAreaVectorThreaded_eq (nThreads : ℕ) (pts : List (ℚ × ℚ × ℚ))
    (spheres : List Sphere) :
    srAreaVectorThreaded nThreads pts spheres = srAreaVector pts spheres := by
  unfold srAreaVectorThreaded srAreaVector
  rw [← List.map_flatten, chunkList_flatten]

end FreeSASA

/-- Claim C8: for every structure (sphere list with its deterministic
sample-point set) and every pair of positive thread counts, the
computed per-atom areas — and hence the total — are numerically
identical between the 1-thread run and the N-thread run: each worker
only reads shared immutable inputs and writes a disjoint slot of the
output vector, so the assembled vector never depends on the thread
count. -/
theorem thread_count_invariance (pts : List (ℚ × ℚ × ℚ))
    (spheres : List FreeSASA.Sphere) (n : ℕ) (hn : 0 < n) :
    FreeSASA.srAreaVectorThreaded n pts spheres =
      FreeSASA.srAreaVectorThreaded 1 pts spheres ∧
    (FreeSASA.srAreaVectorThreaded n pts spheres).sum =
      FreeSASA.srTotalArea pts spheres := by
  have h1 := FreeSASA.srAreaVectorThreaded_eq n pts spheres
  have h2 := FreeSASA.srAreaVectorThreaded_eq 1 pts spheres
  refine ⟨h1.trans h2.symm, ?_⟩
  rw [h1]
  rfl

/-- Witness for C8: a 7-thread run on the two separated unit spheres
of `test.py` equals the 1-thread run. -/
theorem thread_count_invariance_witness :
    FreeSASA.srAreaVectorThreaded 7 [((1 : ℚ), (0 : ℚ), (0 : ℚ))]
        (FreeSASA.inflate 0 [(0, 0, 0), (4, 4, 4)] [1, 1]) =
      FreeSASA.srAreaVectorThreaded 1 [((1 : ℚ), (0 : ℚ), (0 : ℚ))]
        (FreeSASA.inflate 0 [(0, 0, 0), (4, 4, 4)] [1, 1]) ∧
    (FreeSASA.srAreaVectorThreaded 7 [((1 : ℚ), (0 : ℚ), (0 : ℚ))]
        (FreeSASA.inflate 0 [(0, 0, 0), (4, 4, 4)] [1, 1])).sum =
      FreeSASA.srTotalArea [((1 : ℚ), (0 : ℚ), (0 : ℚ))]
        (FreeSASA.inflate 0 [(0, 0, 0), (4, 4, 4)] [1, 1]) :=
  thread_count_invariance [((1 : ℚ), (0 : ℚ), (0 : ℚ))]
    (FreeSASA.inflate 0 [(0, 0, 0), (4, 4, 4)] [1, 1]) 7 (by decide)

namespace FreeSASA

/-- Modelled from the spec: one atom record of a parsed coordinate
file, carrying the atom data together with the flags the loading
policies act on (hydrogen, heteroatom). -/
structure PdbAtom where
  atom : Atom
  isHydrogen : Bool
  isHetatm : Bool
deriving DecidableEq, Repr

/-- Modelled from the spec: one model of a parsed coordinate file. -/
structure PdbModel where
  atoms : List PdbAtom
deriving DecidableEq, Repr

/-- Modelled from the spec (§4.1): the option keys recognized by the
structure-loading interface. -/
def recognizedOptionKeys : List String :=
  ["hetatm", "hydrogen", "join-models", "separate-chains",
   "separate-models", "skip-unknown", "halt-at-unknown"]

/-- Value of a boolean option in an options dictionary (association
list); a missing key counts as disabled. -/
def optValue (opts : List (String × Bool)) (k : String) : Bool :=
  match opts.find? (fun kv => kv.1 == k) with
  | some kv => kv.2
  | none => false

/-- Modelled from the spec: the default options of `structureArray` —
separate chains, use only the first model. -/
def defaultStructureArrayOptions : List (String × Bool) :=
  [("separate-chains", true)]

/-- Keep an atom under the configured loading policy: hydrogens and
heteroatoms are excluded unless the corresponding option is set. -/
def keepAtom (opts : List (String × Bool)) (a : PdbAtom) : Bool :=
  (optValue opts "hydrogen" || !a.isHydrogen) &&
    (optValue opts "hetatm" || !a.isHetatm)

/-- Chain labels of a model in order of first appearance. -/
def chainLabelsOf (atoms : List PdbAtom) : List Char :=
  atoms.foldl
    (fun acc a =>
      if acc.contains a.atom.chainLabel then acc
      else acc ++ [a.atom.chainLabel]) []

/-- Split a model's atoms into one `Structure` per chain, in order of
first appearance of the chain labels. -/
def splitChains (atoms : List PdbAtom) : List Structure :=
  (chainLabelsOf atoms).map
    (fun c => ⟨(atoms.filter (fun a => a.atom.chainLabel == c)).map
      PdbAtom.atom⟩)

/-- Modelled from the spec: `structureArray` — loads a coordinate
file into a list of structures.  The file argument must not be
`None`; every option key must be recognized; at least one of chain
separation or model separation must be enabled, otherwise the call is
a validation failure.  By default only the first model is used and
its chains are separated into distinct structures (`test.py`
`testStructureArray`). -/
def structureArray (file : Option (List PdbModel))
    (opts : List (String × Bool)) : Except String (List Structure) :=
  match file with
  | none => Except.error "file name must not be None"
  | some models =>
      if opts.any (fun kv => !(decide (kv.1 ∈ recognizedOptionKeys))) then
        Except.error "unrecognized option"
      else if !(optValue opts "separate-chains" ||
                optValue opts "separate-models") then
        Except.error "structureArray requires chain or model separation"
      else
        let selected :=
          if optValue opts "separate-models" then models else models.take 1
        let filtered := selected.map (fun m => m.atoms.filter (keepAtom opts))
        if optValue opts "separate-chains" then
          Except.ok (filtered.map splitChains).flatten
        else
          Except.ok (filtered.map (fun l => ⟨l.map PdbAtom.atom⟩))

end FreeSASA

/-- Claim C10: `structureArray` fails with a validation failure when
called with a `None` file argument, or with an options dictionary
containing any unrecognized key, or with an options dictionary whose
keys are all individually valid but which enables neither chain
separation nor model separation (e.g. `hydrogen` alone); the default
options succeed and separate the chains of the first model only. -/
theorem structureArray_validation (opts : List (String × Bool))
    (m : FreeSASA.PdbModel) (rest : List FreeSASA.PdbModel) :
    FreeSASA.structureArray none opts =
      Except.error "file name must not be None" ∧
    (∀ kv, kv ∈ opts → kv.1 ∉ FreeSASA.recognizedOptionKeys →
      FreeSASA.structureArray (some (m :: rest)) opts =
        Except.error "unrecognized option") ∧
    ((∀ kv, kv ∈ opts → kv.1 ∈ FreeSASA.recognizedOptionKeys) →
      FreeSASA.optValue opts "separate-chains" = false →
      FreeSASA.optValue opts "separate-models" = false →
      FreeSASA.structureArray (some (m :: rest)) opts =
        Except.error "structureArray requires chain or model separation") ∧
    FreeSASA.structureArray (some (m :: rest))
        FreeSASA.defaultStructureArrayOptions =
      Except.ok (FreeSASA.splitChains
        (m.atoms.filter
          (FreeSASA.keepAtom FreeSASA.defaultStructureArrayOptions))) := by
  refine ⟨rfl, fun kv hmem hbad => ?_, fun hall hsc hsm => ?_, ?_⟩
  · have hany : opts.any
        (fun kv => !(decide (kv.1 ∈ FreeSASA.recognizedOptionKeys))) = true := by
      rw [List.any_eq_true]
      exact ⟨kv, hmem, by simp [hbad]⟩
    simp only [FreeSASA.structureArray]
    rw [hany]
    rfl
  · have hany : opts.any
        (fun kv => !(decide (kv.1 ∈ FreeSASA.recognizedOptionKeys))) = false := by
      rw [Bool.eq_false_iff]
      intro hc
      rw [List.any_eq_true] at hc
      obtain ⟨kv, hmem, hkv⟩ := hc
      simp at hkv
      exact hkv (hall kv hmem)
    simp only [FreeSASA.structureArray]
    rw [hany, hsc, hsm]
    rfl
  · simp [FreeSASA.structureArray, FreeSASA.defaultStructureArrayOptions,
      FreeSASA.optValue, FreeSASA.recognizedOptionKeys]

/-- Witness for C10: the `None` file rejection; the rejection of the
dictionary with key `not-an-option`; the rejection of the dictionary
containing only `hydrogen`; and a successful default call on a
two-model file whose first model has two chains, returning the two
chains of the first model only. -/
theorem structureArray_validation_witness :
    FreeSASA.structureArray none [("not-an-option", true)] =
      Except.error "file name must not be None" ∧
    FreeSASA.structureArray
        (some [FreeSASA.PdbModel.mk
          [⟨⟨" CA ", "ALA", "   1", 'A', 1, 1, 1, 2⟩, false, false⟩,
           ⟨⟨" CA ", "GLY", "   2", 'B', 2, 1, 1, 2⟩, false, false⟩],
          FreeSASA.PdbModel.mk
          [⟨⟨" CA ", "ALA", "   1", 'A', 1, 1, 1, 2⟩, false, false⟩]])
        [("not-an-option", true), ("hydrogen", true)] =
      Except.error "unrecognized option" ∧
    FreeSASA.structureArray
        (some [FreeSASA.PdbModel.mk
          [⟨⟨" CA ", "ALA", "   1", 'A', 1, 1, 1, 2⟩, false, false⟩,
           ⟨⟨" CA ", "GLY", "   2", 'B', 2, 1, 1, 2⟩, false, false⟩],
          FreeSASA.PdbModel.mk
          [⟨⟨" CA ", "ALA", "   1", 'A', 1, 1, 1, 2⟩, false, false⟩]])
        [("hydrogen", true)] =
      Except.error "structureArray requires chain or model separation" ∧
    FreeSASA.structureArray
        (some [FreeSASA.PdbModel.mk
          [⟨⟨" CA ", "ALA", "   1", 'A', 1, 1, 1, 2⟩, false, false⟩,
           ⟨⟨" CA ", "GLY", "   2", 'B', 2, 1, 1, 2⟩, false, false⟩],
          FreeSASA.PdbModel.mk
          [⟨⟨" CA ", "ALA", "   1", 'A', 1, 1, 1, 2⟩, false, false⟩]])
        FreeSASA.defaultStructureArrayOptions =
      Except.ok
        [FreeSASA.Structure.mk [⟨" CA ", "ALA", "   1", 'A', 1, 1, 1, 2⟩],
         FreeSASA.Structure.mk [⟨" CA ", "GLY", "   2", 'B', 2, 1, 1, 2⟩]] := by
  obtain ⟨h1, h2, h3, h4⟩ := structureArray_validation
    [("not-an-option", true), ("hydrogen", true)]
    (FreeSASA.PdbModel.mk
      [⟨⟨" CA ", "ALA", "   1", 'A', 1, 1, 1, 2⟩, false, false⟩,
       ⟨⟨" CA ", "GLY", "   2", 'B', 2, 1, 1, 2⟩, false, false⟩])
    [FreeSASA.PdbModel.mk
      [⟨⟨" CA ", "ALA", "   1", 'A', 1, 1, 1, 2⟩, false, false⟩]]
  obtain ⟨-, -, h3b, -⟩ := structureArray_validation
    [("hydrogen", true)]
    (FreeSASA.PdbModel.mk
      [⟨⟨" CA ", "ALA", "   1", 'A', 1, 1, 1, 2⟩, false, false⟩,
       ⟨⟨" CA ", "GLY", "   2", 'B', 2, 1, 1, 2⟩, false, false⟩])
    [FreeSASA.PdbModel.mk
      [⟨⟨" CA ", "ALA", "   1", 'A', 1, 1, 1, 2⟩, false, false⟩]]
  obtain ⟨h1c, -, -, -⟩ := structureArray_validation
    [("not-an-option", true)]
    (FreeSASA.PdbModel.mk []) []
  refine ⟨h1c, ?_, ?_, ?_⟩
  · exact h2 ("not-an-option", true) (by simp) (by decide)
  · exact h3b (by decide) (by decide) (by decide)
  · rw [h4]
    rfl
